import Mathlib

/-!
Shallow embedding of `safety_check.py` (Pulseq_Workshop repository).

The script is sequential glue around two library calls (`calculate_pns` and
`calculate_gradient_spectrum`).  We embed it as pure functions producing an
ordered trace of observable effects (prints, plot saves, library calls) paired
with an optional terminal exception.  The file system and the outcome of the
external library calls are inputs (`World`).  Acoustic resonance frequencies
and bandwidths are modelled as integers; the claims we settle only compare
them with zero and pair them up, so the numeric type is immaterial.
-/

namespace SafetyCheck

/-- One acoustic resonance entry: `{"frequency": f, "bandwidth": b}`. -/
structure Resonance where
  frequency : Int
  bandwidth : Int
deriving DecidableEq, Repr

/-- `DEFAULT_ACOUSTIC_RESONANCES_3T` (safety_check.py lines 7-10). -/
def DEFAULT_ACOUSTIC_RESONANCES_3T : List Resonance :=
  [⟨590, 100⟩, ⟨1140, 220⟩]

/-- `DEFAULT_ACOUSTIC_RESONANCES_7T` (safety_check.py lines 12-15). -/
def DEFAULT_ACOUSTIC_RESONANCES_7T : List Resonance :=
  [⟨550, 100⟩, ⟨1100, 300⟩]

/-- Python's `str.strip()` on a list of characters: drop whitespace at both ends. -/
def trimChars (s : List Char) : List Char :=
  ((s.dropWhile Char.isWhitespace).reverse.dropWhile Char.isWhitespace).reverse

/-- `line.startswith("Hash ")` after stripping, on characters. -/
def startsWithHashMarker (s : List Char) : Bool :=
  match s with
  | 'H' :: 'a' :: 's' :: 'h' :: ' ' :: _ => true
  | _ => false

/-- The predicate applied to each raw line in `extract_md5_hash`. -/
def hashLine (l : String) : Bool :=
  startsWithHashMarker (trimChars l.data)

/--
`extract_md5_hash` (safety_check.py lines 17-34).  The `try`/`except` around
`open`/`readlines` is modelled by the `Option`: `none` means reading the file
raised, `some lines` is a successful `readlines()`.  The Python loop walks
`reversed(lines)`, strips each line, and returns `line[5:]` of the first
stripped line starting with `"Hash "`.
-/
def extract_md5_hash (contents : Option (List String)) : String :=
  match contents with
  | none => "Hash extraction failed"
  | some lines =>
    match lines.reverse.find? hashLine with
    | some line => String.mk ((trimChars line.data).drop 5)
    | none => "Hash not found"

/-- Python's `str.replace(".seq", "")`: remove every occurrence of `".seq"`,
left to right, non-overlapping. -/
def replaceSeq : List Char → List Char
  | '.' :: 's' :: 'e' :: 'q' :: rest => replaceSeq rest
  | c :: rest => c :: replaceSeq rest
  | [] => []

/-- `os.path.basename`: the part of the path after the last `'/'`. -/
def basenameChars (s : List Char) : List Char :=
  (s.reverse.takeWhile (fun c => c ≠ '/')).reverse

/-- `os.path.basename(seq_file).replace('.seq', '')` as a `String` function. -/
def seqBaseName (seq_file : String) : String :=
  String.mk (replaceSeq (basenameChars seq_file.data))

/-- `f"pns_check_{os.path.basename(seq_file).replace('.seq', '')}.png"`
(safety_check.py line 57). -/
def pns_output_filename (seq_file : String) : String :=
  "pns_check_" ++ seqBaseName seq_file ++ ".png"

/-- `f"acoustic_resonances_{os.path.basename(seq_file).replace('.seq', '')}.png"`
(safety_check.py line 112). -/
def acoustic_output_filename (seq_file : String) : String :=
  "acoustic_resonances_" ++ seqBaseName seq_file ++ ".png"

/-- Observable effects of the script, in execution order. -/
inductive Event where
  | print (msg : String)
  | computePNS
  | computeSpectrum (table : List Resonance)
  | suptitle (title : String)
  | savePlot (filename : String)
  | showPlot
deriving DecidableEq, Repr

/-- Python exceptions the script can raise. -/
inductive Err where
  | runtimeError (msg : String)
  | valueError (msg : String)
deriving DecidableEq, Repr

/--
`check_PNS` (safety_check.py lines 36-67) as a trace-producing function.
Inputs standing for the environment: `gradExists` is whether
`os.path.exists(gradient_file)` holds, `pns_ok` the first component returned by
`seq.calculate_pns`, `pns_max_str` the printed rendering of
`100*pns_n.max()`, and `contents` the readable content of `seq_file` used by
`extract_md5_hash`.  The second component of the result is the exception the
call terminates with, if any.
-/
def check_PNS (gradFile : String) (gradExists : Bool) (pns_ok : Bool)
    (pns_max_str : String) (contents : Option (List String)) (seq_file : String) :
    List Event × Option Err :=
  if gradExists then
    let md5_hash := extract_md5_hash contents
    let output_filename := pns_output_filename seq_file
    let head : List Event :=
      [.print ("Gradient file found: " ++ gradFile ++ ", using it for PNS check."),
       .computePNS,
       .suptitle ("PNS Check - Hash: " ++ md5_hash),
       .savePlot output_filename,
       .print ("PNS plot saved as: " ++ output_filename)]
    if pns_ok then
      (head ++
        [.print ("PNS check passed successfully: maximum PNS level = " ++ pns_max_str ++ " %"),
         .showPlot], none)
    else
      (head ++
        [.print ("PNS check failed: maximum PNS level = " ++ pns_max_str ++ " %"),
         .showPlot], some (.runtimeError "PNS check failed!"))
  else
    ([.print ("Warning: Gradient file '" ++ gradFile ++ "' not found. Skipping PNS check.")],
     none)

/-- The parallel value tables read from the ASC calibration file:
`aflAcousticResonanceFrequency` and `aflAcousticResonanceBandwidth`
(`dict.values()` in insertion order). -/
structure AscData where
  frequencies : List Int
  bandwidths : List Int
deriving DecidableEq, Repr

/-- The list comprehension of safety_check.py lines 87-91: zip the two value
tables, keep pairs with nonzero frequency, build `Resonance` entries. -/
def resonances_from_asc (asc : AscData) : List Resonance :=
  ((asc.frequencies.zip asc.bandwidths).filter (fun p => p.1 ≠ 0)).map
    (fun p => ⟨p.1, p.2⟩)

/-- The tail of the acoustic-resonance trace shared by both branches
(safety_check.py lines 103-115): spectrum computation, title, save, print, show. -/
def acoustic_tail (table : List Resonance) (contents : Option (List String))
    (seq_file : String) : List Event :=
  [.computeSpectrum table,
   .suptitle ("Acoustic Resonances - Hash: " ++ extract_md5_hash contents),
   .savePlot (acoustic_output_filename seq_file),
   .print ("Acoustic resonances plot saved as: " ++ acoustic_output_filename seq_file),
   .showPlot]

/--
`check_acoustic_resonances` (safety_check.py lines 69-115).  When the gradient
file exists the table comes from the parsed ASC file; otherwise a default
table is chosen by `scanner`, and an unknown scanner raises `ValueError`
before anything is printed or computed.
-/
def check_acoustic_resonances (gradFile : String) (gradExists : Bool) (asc : AscData)
    (contents : Option (List String)) (seq_file : String) (scanner : String) :
    List Event × Option Err :=
  if gradExists then
    (.print ("Using acoustic resonances from gradient file: " ++ gradFile) ::
      acoustic_tail (resonances_from_asc asc) contents seq_file, none)
  else if scanner = "3T" then
    (.print ("Warning: Gradient file '" ++ gradFile ++ "' not found. Using default acoustic resonances.") ::
      acoustic_tail DEFAULT_ACOUSTIC_RESONANCES_3T contents seq_file, none)
  else if scanner = "7T" then
    (.print ("Warning: Gradient file '" ++ gradFile ++ "' not found. Using default acoustic resonances.") ::
      acoustic_tail DEFAULT_ACOUSTIC_RESONANCES_7T contents seq_file, none)
  else
    ([], some (.valueError "Unknown scanner type. Please specify '3T' or '7T'."))

/-- Environment inputs for one invocation: file-system facts and library
results that the script consumes. -/
structure World where
  gradExists : Bool
  pns_ok : Bool
  pns_max_str : String
  asc : AscData
  contents : Option (List String)
deriving DecidableEq, Repr

/-- `safety_check` (safety_check.py lines 117-136): run the PNS check, and
unless it raised, the acoustic-resonance check. -/
def safety_check (w : World) (seq_file : String) (scanner : String) :
    List Event × Option Err :=
  let gradFile := "MP_GPA_K2309_2250V_951A_AS82.asc"
  let r1 := check_PNS gradFile w.gradExists w.pns_ok w.pns_max_str w.contents seq_file
  match r1.2 with
  | some e => (r1.1, some e)
  | none =>
    let r2 := check_acoustic_resonances gradFile w.gradExists w.asc w.contents
        seq_file scanner
    (r1.1 ++ r2.1, r2.2)

/-- Outcome of the `__main__` block. -/
inductive MainResult where
  | usage (exitCode : Nat)
  | ran (trace : List Event) (err : Option Err)
deriving DecidableEq, Repr

/--
`__main__` (safety_check.py lines 138-144).  With a wrong argument count it
prints usage and exits with code 1.  Otherwise it takes `seq_file = sys.argv[1]`
and calls `safety_check(seq_file)` — note the source passes no second argument,
so the `scanner` parameter always takes its default `'3T'`.
-/
def main_entry (argv : List String) (w : World) : MainResult :=
  if argv.length ≠ 2 ∧ argv.length ≠ 3 then
    .usage 1
  else
    let seq_file := argv.getD 1 ""
    let r := safety_check w seq_file "3T"
    .ran r.1 r.2

/-- The tables passed to `calculate_gradient_spectrum` within a trace. -/
def spectrumTables (t : List Event) : List (List Resonance) :=
  t.filterMap (fun e => match e with | .computeSpectrum tb => some tb | _ => none)

/-- The filenames passed to `plt.savefig` within a trace. -/
def savedPlots (t : List Event) : List String :=
  t.filterMap (fun e => match e with | .savePlot f => some f | _ => none)

/-- Follows the spec's words, for comparison with the source-derived
filenames: the base name of the input file with its `.seq` extension (a
trailing `".seq"`) removed. -/
def spec_output_name (p : String) : String :=
  let b := basenameChars p.data
  match b.reverse with
  | 'q' :: 'e' :: 's' :: '.' :: rest => String.mk rest.reverse
  | _ => String.mk b

/-- The trace of effects a `MainResult` carries (empty on a usage error). -/
def mainTrace : MainResult → List Event
  | .usage _ => []
  | .ran t _ => t

lemma startsWithHashMarker_eq (s : List Char) (h : startsWithHashMarker s = true) :
    'H' :: 'a' :: 's' :: 'h' :: ' ' :: s.drop 5 = s := by
  unfold startsWithHashMarker at h
  split at h
  · rfl
  · cases h

lemma zip_get?_eq : ∀ (a b : List Int) (i : Nat) (x : Int × Int),
    (a.zip b).get? i = some x → a.get? i = some x.1 ∧ b.get? i = some x.2 := by
  intro a b i x h
  exact (List.get?_zip_eq_some a b x i).mp h

/-- C2: with the gradient file present, `check_PNS` terminates with a
`RuntimeError "PNS check failed!"` exactly when `pns_ok` is false, and the PNS
plot is saved before the pass/fail branch prints its verdict. -/
theorem check_PNS_saves_then_raises (gradFile pns_max_str : String) (pns_ok : Bool)
    (contents : Option (List String)) (seq_file : String) :
    (pns_ok = false →
      (check_PNS gradFile true pns_ok pns_max_str contents seq_file).2 =
        some (.runtimeError "PNS check failed!")) ∧
    (pns_ok = true →
      (check_PNS gradFile true pns_ok pns_max_str contents seq_file).2 = none) ∧
    (∃ pre post,
      (check_PNS gradFile true pns_ok pns_max_str contents seq_file).1 =
        pre ++ Event.savePlot (pns_output_filename seq_file) :: post ∧
      (pns_ok = false →
        Event.print ("PNS check failed: maximum PNS level = " ++ pns_max_str ++ " %") ∈ post) ∧
      (pns_ok = true →
        Event.print ("PNS check passed successfully: maximum PNS level = "
          ++ pns_max_str ++ " %") ∈ post)) := by
  cases pns_ok with
  | false =>
    refine ⟨fun _ => rfl, ?_, ?_⟩
    · intro h
      cases h
    · refine ⟨[.print ("Gradient file found: " ++ gradFile ++ ", using it for PNS check."),
          .computePNS,
          .suptitle ("PNS Check - Hash: " ++ extract_md5_hash contents)],
        [.print ("PNS plot saved as: " ++ pns_output_filename seq_file),
          .print ("PNS check failed: maximum PNS level = " ++ pns_max_str ++ " %"),
          .showPlot], rfl, ?_, ?_⟩
      · intro _
        exact List.mem_cons_of_mem _ (List.mem_cons_self _ _)
      · intro h
        cases h
  | true =>
    refine ⟨?_, fun _ => rfl, ?_⟩
    · intro h
      cases h
    · refine ⟨[.print ("Gradient file found: " ++ gradFile ++ ", using it for PNS check."),
          .computePNS,
          .suptitle ("PNS Check - Hash: " ++ extract_md5_hash contents)],
        [.print ("PNS plot saved as: " ++ pns_output_filename seq_file),
          .print ("PNS check passed successfully: maximum PNS level = " ++ pns_max_str ++ " %"),
          .showPlot], rfl, ?_, ?_⟩
      · intro h
        cases h
      · intro _
        exact List.mem_cons_of_mem _ (List.mem_cons_self _ _)

/-- Witness for `check_PNS_saves_then_raises` at concrete inputs. -/
theorem check_PNS_saves_then_raises_w :
    (check_PNS "g.asc" true false "12.0" none "a.seq").2 =
      some (.runtimeError "PNS check failed!") ∧
    (check_PNS "g.asc" true true "12.0" none "a.seq").2 = none :=
  ⟨(check_PNS_saves_then_raises "g.asc" "12.0" false none "a.seq").1 rfl,
   (check_PNS_saves_then_raises "g.asc" "12.0" true none "a.seq").2.1 rfl⟩

/-- C3: with the gradient file absent, `check_PNS` only prints a warning: no
PNS computation, no plot save, no exception. -/
theorem check_PNS_missing_gradient_skips (gradFile pns_max_str : String) (pns_ok : Bool)
    (contents : Option (List String)) (seq_file : String) :
    check_PNS gradFile false pns_ok pns_max_str contents seq_file =
      ([.print ("Warning: Gradient file '" ++ gradFile ++ "' not found. Skipping PNS check.")],
        none) ∧
    Event.computePNS ∉ (check_PNS gradFile false pns_ok pns_max_str contents seq_file).1 ∧
    (∀ f, Event.savePlot f ∉ (check_PNS gradFile false pns_ok pns_max_str contents seq_file).1) ∧
    (check_PNS gradFile false pns_ok pns_max_str contents seq_file).2 = none := by
  refine ⟨rfl, ?_, ?_, rfl⟩ <;> simp [check_PNS]

/-- C4: with the gradient file absent, `check_acoustic_resonances` warns and
uses the built-in default table matching the scanner; with the file present,
the table passed to the spectrum computation is the one built from the ASC
data. -/
theorem acoustic_table_selection (gradFile : String) (asc : AscData)
    (contents : Option (List String)) (seq_file scanner : String) :
    spectrumTables (check_acoustic_resonances gradFile true asc contents seq_file scanner).1 =
      [resonances_from_asc asc] ∧
    spectrumTables (check_acoustic_resonances gradFile false asc contents seq_file "3T").1 =
      [DEFAULT_ACOUSTIC_RESONANCES_3T] ∧
    spectrumTables (check_acoustic_resonances gradFile false asc contents seq_file "7T").1 =
      [DEFAULT_ACOUSTIC_RESONANCES_7T] ∧
    Event.print ("Warning: Gradient file '" ++ gradFile
        ++ "' not found. Using default acoustic resonances.") ∈
      (check_acoustic_resonances gradFile false asc contents seq_file "3T").1 ∧
    Event.print ("Warning: Gradient file '" ++ gradFile
        ++ "' not found. Using default acoustic resonances.") ∈
      (check_acoustic_resonances gradFile false asc contents seq_file "7T").1 := by
  refine ⟨rfl, rfl, rfl, ?_, ?_⟩ <;> exact List.mem_cons_self _ _

/-- C5 counterexample: with the gradient file present and the unknown scanner
value `"5T"`, no `ValueError` is raised and the acoustic-resonance check
proceeds to completion. -/
theorem unknown_scanner_counterexample :
    (check_acoustic_resonances "g.asc" true ⟨[], []⟩ none "a.seq" "5T").2 = none ∧
    Event.showPlot ∈ (check_acoustic_resonances "g.asc" true ⟨[], []⟩ none "a.seq" "5T").1 := by
  decide

/-- C5 amended: with the gradient file absent, any scanner value other than
`"3T"` and `"7T"` makes `check_acoustic_resonances` raise
`ValueError "Unknown scanner type. Please specify '3T' or '7T'."` with no
effect performed. -/
theorem unknown_scanner_raises (gradFile : String) (asc : AscData)
    (contents : Option (List String)) (seq_file scanner : String)
    (h3 : scanner ≠ "3T") (h7 : scanner ≠ "7T") :
    check_acoustic_resonances gradFile false asc contents seq_file scanner =
      ([], some (.valueError "Unknown scanner type. Please specify '3T' or '7T'.")) := by
  simp [check_acoustic_resonances, h3, h7]

/-- Witness for `unknown_scanner_raises` at the concrete scanner `"5T"`. -/
theorem unknown_scanner_raises_w :
    check_acoustic_resonances "g.asc" false ⟨[], []⟩ none "a.seq" "5T" =
      ([], some (.valueError "Unknown scanner type. Please specify '3T' or '7T'.")) :=
  unknown_scanner_raises "g.asc" ⟨[], []⟩ none "a.seq" "5T" (by decide) (by decide)

/-- C6: a failed file read yields the sentinel `"Hash extraction failed"`, and
a successful read with no stripped line starting with `"Hash "` yields the
sentinel `"Hash not found"`. -/
theorem extract_md5_hash_sentinels :
    extract_md5_hash none = "Hash extraction failed" ∧
    ∀ lines : List String, (∀ l ∈ lines, hashLine l = false) →
      extract_md5_hash (some lines) = "Hash not found" := by
  refine ⟨rfl, fun lines h => ?_⟩
  have hnone : lines.reverse.find? hashLine = none := by
    rw [List.find?_eq_none]
    intro x hx
    simp [h x (List.mem_reverse.mp hx)]
  simp [extract_md5_hash, hnone]

/-- Witness for `extract_md5_hash_sentinels` on a concrete hash-free file. -/
theorem extract_md5_hash_sentinels_w :
    extract_md5_hash (some ["abc", "de"]) = "Hash not found" :=
  extract_md5_hash_sentinels.2 ["abc", "de"] (by decide)

/-- C7: when the file contains a stripped line starting with `"Hash "` and no
later line does, `extract_md5_hash` returns that stripped line with the
5-character `"Hash "` marker removed. -/
theorem extract_md5_hash_last_hash_line (front rest : List String) (l : String)
    (hl : hashLine l = true) (hrest : ∀ l' ∈ rest, hashLine l' = false) :
    extract_md5_hash (some (front ++ l :: rest)) =
      String.mk ((trimChars l.data).drop 5) ∧
    'H' :: 'a' :: 's' :: 'h' :: ' ' :: (trimChars l.data).drop 5 = trimChars l.data := by
  constructor
  · have hnone : rest.reverse.find? hashLine = none := by
      rw [List.find?_eq_none]
      intro x hx
      simp [hrest x (List.mem_reverse.mp hx)]
    have hrev : (front ++ l :: rest).reverse = rest.reverse ++ l :: front.reverse := by
      simp
    have hfind : (front ++ l :: rest).reverse.find? hashLine = some l := by
      rw [hrev, List.find?_append, hnone, List.find?_cons_of_pos _ hl]
      rfl
    simp only [extract_md5_hash, hfind]
  · exact startsWithHashMarker_eq _ hl

/-- Witness for `extract_md5_hash_last_hash_line` on a concrete file holding
two hash lines: the later one wins. -/
theorem extract_md5_hash_last_hash_line_w :
    extract_md5_hash (some (["x", "Hash aa"] ++ "Hash bb" :: ["y"])) =
      String.mk ((trimChars "Hash bb".data).drop 5) :=
  (extract_md5_hash_last_hash_line ["x", "Hash aa"] ["y"] "Hash bb"
    (by decide) (by decide)).1

/-- C8 counterexample: on the input path `"a.seqb.seq"` the saved PNS plot
filename differs from the spec's words (base name with the `.seq` extension
removed): the code removes every occurrence of `".seq"`, not only the
extension. -/
theorem output_filename_counterexample :
    savedPlots (check_PNS "g.asc" true true "0" none "a.seqb.seq").1 ≠
      ["pns_check_" ++ spec_output_name "a.seqb.seq" ++ ".png"] := by
  decide

/-- C8 amended: both plot filenames are `pns_check_<n>.png` and
`acoustic_resonances_<n>.png` where `<n>` is the base name of the input path
with every occurrence of the substring `".seq"` removed. -/
theorem output_filenames_from_basename (gradFile pns_max_str : String) (pns_ok : Bool)
    (asc : AscData) (contents : Option (List String)) (seq_file scanner : String) :
    savedPlots (check_PNS gradFile true pns_ok pns_max_str contents seq_file).1 =
      ["pns_check_" ++ String.mk (replaceSeq (basenameChars seq_file.data)) ++ ".png"] ∧
    savedPlots (check_acoustic_resonances gradFile true asc contents seq_file scanner).1 =
      ["acoustic_resonances_" ++ String.mk (replaceSeq (basenameChars seq_file.data))
        ++ ".png"] := by
  cases pns_ok <;> exact ⟨rfl, rfl⟩

/-- C9: with an argument count other than 2 or 3 (script name included) the
program prints usage and exits with code 1, running no safety check. -/
theorem bad_usage_exits (argv : List String) (w : World)
    (h2 : argv.length ≠ 2) (h3 : argv.length ≠ 3) :
    main_entry argv w = .usage 1 := by
  unfold main_entry
  rw [if_pos ⟨h2, h3⟩]

/-- Witness for `bad_usage_exits` with an empty argument vector. -/
theorem bad_usage_exits_w :
    main_entry [] ⟨false, true, "0", ⟨[], []⟩, none⟩ = .usage 1 :=
  bad_usage_exits [] ⟨false, true, "0", ⟨[], []⟩, none⟩ (by decide) (by decide)

/-- C1: the CLI scanner argument is ignored.  Invoked as
`safety_check.py phantom.seq 7T` with the calibration file absent, the run
computes the gradient spectrum against the 3T default table, not the 7T one:
line 144 of the source calls `safety_check(seq_file)` without forwarding
`sys.argv[2]`, so `scanner` always takes its default `'3T'`. -/
theorem scanner_argument_ignored :
    Event.computeSpectrum DEFAULT_ACOUSTIC_RESONANCES_3T ∈
      mainTrace (main_entry ["safety_check.py", "phantom.seq", "7T"]
        ⟨false, true, "0", ⟨[], []⟩, none⟩) ∧
    Event.computeSpectrum DEFAULT_ACOUSTIC_RESONANCES_7T ∉
      mainTrace (main_entry ["safety_check.py", "phantom.seq", "7T"]
        ⟨false, true, "0", ⟨[], []⟩, none⟩) := by
  decide

/-- C10: every resonance entry built from the ASC tables has a nonzero
frequency, and pairs a frequency with the bandwidth at the same index of the
parallel tables. -/
theorem resonances_invariant (asc : AscData) :
    (∀ r ∈ resonances_from_asc asc, r.frequency ≠ 0) ∧
    (∀ r ∈ resonances_from_asc asc, ∃ i, asc.frequencies.get? i = some r.frequency ∧
      asc.bandwidths.get? i = some r.bandwidth) := by
  constructor
  · intro r hr
    obtain ⟨p, hp, hpr⟩ := List.mem_map.mp hr
    obtain ⟨hmem, hnz⟩ := List.mem_filter.mp hp
    have : p.1 ≠ 0 := by simpa using hnz
    rw [← hpr]
    exact this
  · intro r hr
    obtain ⟨p, hp, hpr⟩ := List.mem_map.mp hr
    obtain ⟨hmem, hnz⟩ := List.mem_filter.mp hp
    obtain ⟨i, hi⟩ := List.mem_iff_get?.mp hmem
    obtain ⟨hf, hb⟩ := zip_get?_eq _ _ i p hi
    exact ⟨i, by rw [← hpr]; exact hf, by rw [← hpr]; exact hb⟩

/-- Witness for `resonances_invariant` on concrete parallel tables. -/
theorem resonances_invariant_w :
    (Resonance.mk 590 100).frequency ≠ 0 :=
  (resonances_invariant ⟨[0, 590], [50, 100]⟩).1 ⟨590, 100⟩ (by decide)

end SafetyCheck
